import Mathlib

/-!
Verification of the AI-tool layer of the Neon database node package
(`nodes/Neon/tools/`): the shared validators, error classifier and
response formatters (`shared/types.ts`, `shared/validators.ts`,
`shared/errors.ts`, `shared/formatters.ts`) and the pre-execution phase
of the five tool operations (Select, Insert, Update, Delete,
ExecuteRawSql).

Strings are modelled as `List Char` (`Str`); the JavaScript string
operations used by the source (`trim`, `toUpperCase`, `toLowerCase`,
`includes`, `startsWith`, `endsWith`, `split`, `match(/;/g).length`,
template interpolation) are given as executable functions on `Str`.
Each tool's `execute` method is modelled up to its single database call:
`plan` runs the validation sequence of the source and either returns the
error envelope produced by `formatToolError` (the statement is never
built) or the assembled SQL statement together with the list of bound
parameter values.  The database round trip itself is an external
collaborator; `run` functions take the database outcome as an argument
where a claim concerns the success envelope.
-/

abbrev Str := List Char

/-- Whitespace characters recognised by JavaScript `trim` / `\s` (ASCII part). -/
def isWsp (c : Char) : Bool :=
  c = ' ' || c = '\t' || c = '\n' || c = '\r' || c = '\x0b' || c = '\x0c'

/-- JavaScript `String.prototype.trim` on the ASCII whitespace set. -/
def trimL (s : Str) : Str :=
  ((s.dropWhile isWsp).reverse.dropWhile isWsp).reverse

/-- JavaScript `toUpperCase` (ASCII). -/
def toUpperL (s : Str) : Str := s.map Char.toUpper

/-- JavaScript `toLowerCase` (ASCII). -/
def toLowerL (s : Str) : Str := s.map Char.toLower

/-- JavaScript `String.prototype.includes`: substring containment. -/
def containsSub (t sub : Str) : Bool := decide (sub <:+: t)

/-- Decimal rendering of a natural number, as JavaScript template interpolation does. -/
def natToStr (n : Nat) : Str := Nat.toDigits 10 n

/-- Decimal rendering of an integer. -/
def intToStr (i : Int) : Str :=
  if i < 0 then '-' :: natToStr i.natAbs else natToStr i.natAbs

/-- JavaScript `errors.join('; ')`. -/
def joinSemi (errs : List Str) : Str := List.intercalate "; ".data errs

/-- JavaScript `errors?.join('; ') || fallback` (an empty join is falsy). -/
def joinOr (errs : List Str) (fallback : Str) : Str :=
  if joinSemi errs = [] then fallback else joinSemi errs

/-- The full-match test of the identifier regular expression
`/^[a-zA-Z_][a-zA-Z0-9_]*$/` used by `validateTableName` and
`validateColumnName`. -/
def matchesIdent (s : Str) : Bool :=
  match s with
  | [] => false
  | c :: cs => (c.isAlpha || c = '_') && cs.all (fun d => d.isAlphanum || d = '_')

/-- `ValidationResult` of `shared/types.ts`; absent `errors`/`warnings`
fields are modelled as the empty list. -/
structure ValidationResult where
  valid : Bool
  errors : List Str
  warnings : List Str
deriving DecidableEq, Repr

def msgTableRequired : Str := "Table name is required".data

def msgTableInvalidChars : Str :=
  "Table name contains invalid characters (possible SQL injection attempt)".data

def msgTableGrammar : Str :=
  "Table name must start with a letter or underscore and contain only letters, numbers, and underscores".data

/-- `validateTableName` of `shared/validators.ts`. -/
def validateTableName (table : Str) : ValidationResult :=
  if trimL table = [] then ⟨false, [msgTableRequired], []⟩
  else if containsSub table ";".data || containsSub table "--".data ||
      containsSub table "/*".data then
    ⟨false, [msgTableInvalidChars], []⟩
  else if !matchesIdent table then ⟨false, [msgTableGrammar], []⟩
  else ⟨true, [], []⟩

def msgColumnRequired : Str := "Column name is required".data

def msgColumnInvalidChars : Str :=
  "Column name contains invalid characters (possible SQL injection attempt)".data

def msgColumnGrammar : Str :=
  "Column name must start with a letter or underscore and contain only letters, numbers, and underscores".data

/-- `validateColumnName` of `shared/validators.ts`. -/
def validateColumnName (column : Str) : ValidationResult :=
  if column = "*".data then ⟨true, [], []⟩
  else if trimL column = [] then ⟨false, [msgColumnRequired], []⟩
  else if containsSub column ";".data || containsSub column "--".data ||
      containsSub column "/*".data then
    ⟨false, [msgColumnInvalidChars], []⟩
  else if !matchesIdent column then ⟨false, [msgColumnGrammar], []⟩
  else ⟨true, [], []⟩

/-- `validateColumnList` of `shared/validators.ts`: split on `,`, trim each
token, validate each via `validateColumnName`, aggregate the errors. -/
def validateColumnList (columns : Str) : ValidationResult :=
  if trimL columns = [] then ⟨true, [], []⟩
  else if trimL columns = "*".data then ⟨true, [], []⟩
  else
    let columnArray := (List.splitOn ',' columns).map trimL
    let errors := columnArray.flatMap (fun col =>
      let validation := validateColumnName col
      if !validation.valid then validation.errors else [])
    if errors.length > 0 then ⟨false, errors, []⟩ else ⟨true, [], []⟩

/-- The dangerous-keyword list of `validateWhereClause`, in source order. -/
def dangerousWhereKeywords : List Str :=
  ["DROP".data, "DELETE".data, "TRUNCATE".data, "ALTER".data, "CREATE".data,
   "EXEC".data, "EXECUTE".data, "; ".data]

def msgWhereDangerous (keyword : Str) : Str :=
  "WHERE clause contains potentially dangerous keyword: ".data ++ keyword

def msgWhereComment : Str :=
  "WHERE clause contains SQL comment syntax (possible injection attempt)".data

/-- `validateWhereClause` of `shared/validators.ts`. -/
def validateWhereClause (whereClause : Str) : ValidationResult :=
  if trimL whereClause = [] then ⟨true, [], []⟩
  else
    let upperClause := toUpperL whereClause
    let kwErrors := dangerousWhereKeywords.filterMap (fun keyword =>
      if containsSub upperClause keyword then some (msgWhereDangerous keyword) else none)
    let commentErrors :=
      if containsSub whereClause "--".data || containsSub whereClause "/*".data then
        [msgWhereComment]
      else []
    let errors := kwErrors ++ commentErrors
    if errors.length > 0 then ⟨false, errors, []⟩ else ⟨true, [], []⟩

def msgLimitMin : Str := "Limit must be at least 1".data

def msgLimitHigh : Str :=
  "Limit is very high (>10000). Consider using pagination for large result sets.".data

/-- `validateLimit` of `shared/validators.ts`. -/
def validateLimit (limit : Option Int) : ValidationResult :=
  match limit with
  | none => ⟨true, [], []⟩
  | some l =>
    if l < 1 then ⟨false, [msgLimitMin], []⟩
    else if l > 10000 then ⟨true, [], [msgLimitHigh]⟩
    else ⟨true, [], []⟩

/-- The allowed first words of `validateSqlQuery`, in source order. -/
def allowedFirstWords : List Str :=
  ["SELECT".data, "INSERT".data, "UPDATE".data, "DELETE".data, "WITH".data]

/-- The dangerous-statement list of `validateSqlQuery`, in source order. -/
def dangerousSqlKeywords : List Str :=
  ["DROP TABLE".data, "DROP DATABASE".data, "TRUNCATE".data, "ALTER TABLE".data,
   "CREATE TABLE".data, "CREATE DATABASE".data, "GRANT".data, "REVOKE".data]

def msgSqlRequired : Str := "SQL query is required".data

def msgSqlFirstWord : Str :=
  "Query must start with one of: ".data ++ List.intercalate ", ".data allowedFirstWords

def msgSqlDangerous (keyword : Str) : Str :=
  "Query contains dangerous operation: ".data ++ keyword

def msgSqlMulti : Str := "Multiple SQL statements in one query are not allowed".data

/-- The first token of the trimmed query: `upperQuery.split(/\s+/)[0]`
(on a trimmed string this is the maximal leading run of non-whitespace). -/
def firstWordOf (upperQuery : Str) : Str := upperQuery.takeWhile (fun c => !isWsp c)

/-- The multi-statement test of `validateSqlQuery`: more than one `;` in
the raw query, or exactly one that is not the last character of the
trimmed query (`!query.trim().endsWith(';')` in the source). -/
def multiStatement (query : Str) : Bool :=
  let semicolons := query.count ';'
  semicolons > 1 || (semicolons = 1 && !((trimL query).getLast? = some ';'))

/-- `validateSqlQuery` of `shared/validators.ts`.  Note: the semicolon
count is taken on the raw query, the `endsWith(';')` test on the trimmed
query, exactly as in the source. -/
def validateSqlQuery (query : Str) : ValidationResult :=
  if trimL query = [] then ⟨false, [msgSqlRequired], []⟩
  else
    let upperQuery := toUpperL (trimL query)
    let firstWord := firstWordOf upperQuery
    if !allowedFirstWords.contains firstWord then ⟨false, [msgSqlFirstWord], []⟩
    else
      let errors := dangerousSqlKeywords.filterMap (fun keyword =>
        if containsSub upperQuery keyword then some (msgSqlDangerous keyword) else none)
      if multiStatement query then ⟨false, errors ++ [msgSqlMulti], []⟩
      else if errors.length > 0 then ⟨false, errors, []⟩
      else ⟨true, [], []⟩

/-- The ten error categories (`ToolErrorType` of `shared/types.ts`). -/
inductive ToolErrorType
  | connection_error
  | authentication_error
  | invalid_table
  | invalid_column
  | syntax_error
  | constraint_violation
  | permission_denied
  | timeout
  | validation_error
  | unknown_error
deriving DecidableEq, Repr

/-- A raised failure as seen by `categorizeError`: an optional message
string and an optional (string) driver code.  A missing message yields the
empty lower-cased message, a missing code the empty code string, exactly
as the source's defaulting does. -/
structure DbError where
  message : Option Str
  code : Option Str
deriving DecidableEq, Repr

def DbError.errorMessage (e : DbError) : Str := (e.message.map toLowerL).getD []

def DbError.errorCodeStr (e : DbError) : Str := e.code.getD []

/-- Predicate of branch 1 of `categorizeError` (connection codes). -/
def connectionPred (e : DbError) : Bool :=
  e.errorCodeStr = "ECONNREFUSED".data || e.errorCodeStr = "ENOTFOUND".data ||
    e.errorCodeStr = "ETIMEDOUT".data

/-- Predicate of branch 2 of `categorizeError` (authentication). -/
def authenticationPred (e : DbError) : Bool :=
  e.errorCodeStr = "28P01".data || containsSub e.errorMessage "authentication".data ||
    containsSub e.errorMessage "password".data

/-- Predicate of branch 3 of `categorizeError` (undefined relation). -/
def invalidTablePred (e : DbError) : Bool :=
  e.errorCodeStr = "42P01".data ||
    (containsSub e.errorMessage "does not exist".data &&
      containsSub e.errorMessage "relation".data)

/-- Predicate of branch 4 of `categorizeError` (undefined column). -/
def invalidColumnPred (e : DbError) : Bool :=
  e.errorCodeStr = "42703".data ||
    (containsSub e.errorMessage "does not exist".data &&
      containsSub e.errorMessage "column".data)

/-- Predicate of branch 5 of `categorizeError` (insufficient privilege). -/
def permissionPred (e : DbError) : Bool :=
  e.errorCodeStr = "42501".data || containsSub e.errorMessage "permission denied".data

/-- Predicate of branch 6 of `categorizeError` (syntax family). -/
def syntaxPred (e : DbError) : Bool :=
  "42".data.isPrefixOf e.errorCodeStr || containsSub e.errorMessage "syntax error".data

/-- Predicate of branch 7 of `categorizeError` (integrity constraints). -/
def constraintPred (e : DbError) : Bool :=
  e.errorCodeStr = "23505".data || e.errorCodeStr = "23503".data ||
    "23".data.isPrefixOf e.errorCodeStr

/-- Predicate of branch 8 of `categorizeError` (timeouts by message). -/
def timeoutPred (e : DbError) : Bool :=
  containsSub e.errorMessage "timeout".data || containsSub e.errorMessage "timed out".data

/-- Predicate of branch 9 of `categorizeError` (validation by message). -/
def validationPred (e : DbError) : Bool :=
  containsSub e.errorMessage "invalid".data || containsSub e.errorMessage "validation".data

/-- `categorizeError` of `shared/errors.ts`: the cascade of the ten
branch predicates, first match wins. -/
def categorizeError (e : DbError) : ToolErrorType :=
  if connectionPred e then .connection_error
  else if authenticationPred e then .authentication_error
  else if invalidTablePred e then .invalid_table
  else if invalidColumnPred e then .invalid_column
  else if permissionPred e then .permission_denied
  else if syntaxPred e then .syntax_error
  else if constraintPred e then .constraint_violation
  else if timeoutPred e then .timeout
  else if validationPred e then .validation_error
  else .unknown_error

/-- The ordered (predicate, category) table of the spec's §4.2 precedence
list; `unknown_error` is the fall-through. -/
def categoryTable : List ((DbError → Bool) × ToolErrorType) :=
  [(connectionPred, .connection_error),
   (authenticationPred, .authentication_error),
   (invalidTablePred, .invalid_table),
   (invalidColumnPred, .invalid_column),
   (permissionPred, .permission_denied),
   (syntaxPred, .syntax_error),
   (constraintPred, .constraint_violation),
   (timeoutPred, .timeout),
   (validationPred, .validation_error)]

/-- First-match evaluation of an ordered (predicate, category) table. -/
def firstMatchCat : List ((DbError → Bool) × ToolErrorType) → DbError → ToolErrorType
  | [], _ => .unknown_error
  | (p, c) :: rest, e => if p e then c else firstMatchCat rest e

/-- A database column value supplied by the caller (`ToolColumnValue`
restricted to the scalar kinds the claims exercise). -/
inductive Value
  | str (s : Str)
  | int (i : Int)
  | bool (b : Bool)
  | null
deriving DecidableEq, Repr

/-- A result or input row: an ordered key/value object. -/
abbrev Row := List (Str × Value)

/-- `ToolErrorResponse` of `shared/types.ts` (the `suggestion` and
`details.timestamp` fields, which no claim concerns, are omitted). -/
structure ToolErrorResponse where
  operation : Str
  table : Option Str
  error : Str
  errorType : ToolErrorType
  sqlState : Option Str
deriving DecidableEq, Repr

/-- `new Error(msg)`: a locally synthesized failure carries a message and
no driver code. -/
def localError (msg : Str) : DbError := ⟨some msg, none⟩

/-- `formatToolError` of `shared/errors.ts`: classify via
`categorizeError`, keep the message (or the unknown-error fallback), and
carry the string driver code as `sqlState`. -/
def formatToolError (operation : Str) (e : DbError) (table : Option Str) :
    ToolErrorResponse :=
  { operation := operation
    table := table
    error := e.message.getD "An unknown error occurred".data
    errorType := categorizeError e
    sqlState := e.code }

/-- `ToolQuerySuccessResponse` of `shared/types.ts`
(`executionTime`, wall-clock metadata, is omitted). -/
structure ToolQuerySuccessResponse where
  operation : Str
  table : Option Str
  rowCount : Nat
  data : List Row
  columns : List Str
  truncated : Bool
deriving DecidableEq, Repr

/-- `formatQueryResponse` of `shared/formatters.ts`.  The JavaScript
source computes `truncated` as `options?.maxRows ? rowCount >=
options.maxRows : false`: a supplied cap of `0` is falsy and yields
`false`. -/
def formatQueryResponse (operation : Str) (data : List Row) (table : Option Str)
    (maxRows : Option Int) : ToolQuerySuccessResponse :=
  let rowCount := data.length
  let truncated :=
    match maxRows with
    | some m => if m ≠ 0 then decide ((rowCount : Int) ≥ m) else false
    | none => false
  let columns :=
    match data with
    | [] => []
    | r :: _ => r.map Prod.fst
  { operation := operation, table := table, rowCount := rowCount, data := data
    columns := columns, truncated := truncated }

/-- `ToolModificationSuccessResponse` of `shared/types.ts`
(`executionTime` omitted). -/
structure ToolModificationSuccessResponse where
  operation : Str
  table : Option Str
  affectedRows : Int
  data : Option (List Row)
deriving DecidableEq, Repr

/-- `formatModificationResponse` of `shared/formatters.ts`. -/
def formatModificationResponse (operation : Str) (affectedRows : Int)
    (table : Option Str) (data : Option (List Row)) :
    ToolModificationSuccessResponse :=
  { operation := operation, table := table, affectedRows := affectedRows, data := data }

/-- `ToolResponse`: the union of the three envelope shapes. -/
inductive ToolResponse
  | query (r : ToolQuerySuccessResponse)
  | modification (r : ToolModificationSuccessResponse)
  | error (r : ToolErrorResponse)
deriving DecidableEq, Repr

/-- The assembled SQL statement handed to the database handle: the query
text and the positional bound parameter values (`$1, $2, …`). -/
structure SqlStatement where
  query : Str
  values : List Value
deriving DecidableEq, Repr

def opSelect : Str := "select".data

def opInsert : Str := "insert".data

def opUpdate : Str := "update".data

def opDelete : Str := "delete".data

def opExecuteQuery : Str := "executeQuery".data

inductive SortDirection
  | asc
  | desc
deriving DecidableEq, Repr

def SortDirection.render : SortDirection → Str
  | .asc => "ASC".data
  | .desc => "DESC".data

/-- Decoded parameters of the Select tool (`NeonSelectQueryTool.execute`),
after the node defaults have been applied. -/
structure SelectQueryParams where
  schema : Str
  table : Str
  columns : Str
  whereConditions : Str
  sortBy : Str
  sortDirection : SortDirection
  limit : Int
deriving DecidableEq, Repr

/-- The validation-and-assembly phase of `NeonSelectQueryTool.execute`
(up to the single `db.any` call): the sequence of validator checks, each
short-circuiting to the `formatToolError` envelope, then the statement
assembly of lines 232–247 of the source. -/
def NeonSelectQueryTool.plan (p : SelectQueryParams) :
    Except ToolErrorResponse SqlStatement :=
  let tableValidation := validateTableName p.table
  if !tableValidation.valid then
    .error (formatToolError opSelect
      (localError (joinOr tableValidation.errors "Invalid table name".data)) (some p.table))
  else
    let columnsValidation := validateColumnList p.columns
    if !columnsValidation.valid then
      .error (formatToolError opSelect
        (localError (joinOr columnsValidation.errors "Invalid column names".data)) (some p.table))
    else
      let whereValidation := validateWhereClause p.whereConditions
      if !whereValidation.valid then
        .error (formatToolError opSelect
          (localError (joinOr whereValidation.errors "Invalid WHERE clause".data)) (some p.table))
      else
        let limitValidation := validateLimit (some p.limit)
        if !limitValidation.valid then
          .error (formatToolError opSelect
            (localError (joinOr limitValidation.errors "Invalid limit".data)) (some p.table))
        else
          let columnList := if trimL p.columns = "*".data then "*".data else p.columns
          let query := "SELECT ".data ++ columnList ++ " FROM \"".data ++ p.schema ++
            "\".\"".data ++ p.table ++ "\"".data
          let query :=
            if trimL p.whereConditions ≠ [] then query ++ " WHERE ".data ++ p.whereConditions
            else query
          let query :=
            if trimL p.sortBy ≠ [] then
              query ++ " ORDER BY \"".data ++ p.sortBy ++ "\" ".data ++ p.sortDirection.render
            else query
          let query := query ++ " LIMIT ".data ++ intToStr p.limit
          .ok ⟨query, []⟩

/-- `NeonSelectQueryTool.execute` observed at its envelope boundary:
on a successful plan the database rows are formatted by
`formatQueryResponse` with `maxRows := limit`. -/
def NeonSelectQueryTool.run (p : SelectQueryParams) (dbRows : List Row) : ToolResponse :=
  match NeonSelectQueryTool.plan p with
  | .error e => .error e
  | .ok _ => .query (formatQueryResponse opSelect dbRows (some p.table) (some p.limit))

/-- Decoded parameters of the Insert tool (`NeonInsertDataTool.execute`).
The JSON text form of `data` is modelled as already parsed and normalised
to a list of rows (`Array.isArray(parsed) ? parsed : [parsed]`). -/
structure InsertDataParams where
  schema : Str
  table : Str
  data : List Row
  skipOnConflict : Bool
  returnData : Bool
deriving DecidableEq, Repr

/-- The validation-and-assembly phase of `NeonInsertDataTool.execute`
(lines 161–233 of the source): table validation, the empty-data and
zero-columns checks, then the multi-row `INSERT … VALUES` assembly with
`$k` placeholders; the column list is taken from the keys of the first
row and the bound values are gathered row-major. -/
def NeonInsertDataTool.plan (p : InsertDataParams) :
    Except ToolErrorResponse SqlStatement :=
  let tableValidation := validateTableName p.table
  if !tableValidation.valid then
    .error (formatToolError opInsert
      (localError (joinOr tableValidation.errors "Invalid table name".data)) (some p.table))
  else if p.data.isEmpty then
    .error (formatToolError opInsert
      (localError "No data provided for insert".data) (some p.table))
  else
    let firstRow := p.data.headD []
    let columns := firstRow.map Prod.fst
    if columns.isEmpty then
      .error (formatToolError opInsert
        (localError "Data object has no columns".data) (some p.table))
    else
      let columnList := List.intercalate ", ".data
        (columns.map (fun col => "\"".data ++ col ++ "\"".data))
      let placeholders := List.intercalate ", ".data
        ((List.range p.data.length).map (fun rowIndex =>
          "(".data ++
            List.intercalate ", ".data ((List.range columns.length).map (fun colIndex =>
              "$".data ++ natToStr (rowIndex * columns.length + colIndex + 1))) ++
          ")".data))
      let query := "INSERT INTO \"".data ++ p.schema ++ "\".\"".data ++ p.table ++
        "\" (".data ++ columnList ++ ") VALUES ".data ++ placeholders
      let query := if p.skipOnConflict then query ++ " ON CONFLICT DO NOTHING".data else query
      let query := if p.returnData then query ++ " RETURNING *".data else query
      let values := p.data.flatMap (fun row =>
        columns.map (fun col => (row.lookup col).getD Value.null))
      .ok ⟨query, values⟩

/-- Decoded parameters of the Update tool (`NeonUpdateDataTool.execute`);
the JSON text form of `values` is modelled as already parsed. -/
structure UpdateDataParams where
  schema : Str
  table : Str
  values : Row
  whereConditions : Str
  returnData : Bool
deriving DecidableEq, Repr

def msgUpdateWhereRequired : Str :=
  "WHERE conditions are required for UPDATE operations. To update all rows, explicitly provide \"1=1\" as the condition.".data

def msgUpdateNoColumns : Str := "No columns provided to update".data

/-- The validation-and-assembly phase of `NeonUpdateDataTool.execute`
(lines 167–233 of the source): table validation, the mandatory-WHERE
check, WHERE validation, the zero-columns check, then the
`UPDATE … SET "col" = $k … WHERE …` assembly with the new values bound
positionally. -/
def NeonUpdateDataTool.plan (p : UpdateDataParams) :
    Except ToolErrorResponse SqlStatement :=
  let tableValidation := validateTableName p.table
  if !tableValidation.valid then
    .error (formatToolError opUpdate
      (localError (joinOr tableValidation.errors "Invalid table name".data)) (some p.table))
  else if trimL p.whereConditions = [] then
    .error (formatToolError opUpdate (localError msgUpdateWhereRequired) (some p.table))
  else
    let whereValidation := validateWhereClause p.whereConditions
    if !whereValidation.valid then
      .error (formatToolError opUpdate
        (localError (joinOr whereValidation.errors "Invalid WHERE clause".data)) (some p.table))
    else
      let columns := p.values.map Prod.fst
      if columns.isEmpty then
        .error (formatToolError opUpdate (localError msgUpdateNoColumns) (some p.table))
      else
        let setClause := List.intercalate ", ".data (columns.enum.map (fun ic =>
          "\"".data ++ ic.2 ++ "\" = $".data ++ natToStr (ic.1 + 1)))
        let query := "UPDATE \"".data ++ p.schema ++ "\".\"".data ++ p.table ++
          "\" SET ".data ++ setClause ++ " WHERE ".data ++ p.whereConditions
        let query := if p.returnData then query ++ " RETURNING *".data else query
        let values := columns.map (fun col => (p.values.lookup col).getD Value.null)
        .ok ⟨query, values⟩

inductive DeleteMode
  | delete
  | truncate
  | drop
deriving DecidableEq, Repr

def DeleteMode.upperName : DeleteMode → Str
  | .delete => "DELETE".data
  | .truncate => "TRUNCATE".data
  | .drop => "DROP".data

/-- Decoded parameters of the Delete tool (`NeonDeleteDataTool.execute`);
an absent `whereConditions` decodes to the empty string and an absent
`confirmDestructive` to `false` (the node-parameter defaults). -/
structure DeleteDataParams where
  schema : Str
  table : Str
  mode : DeleteMode
  whereConditions : Str
  confirmDestructive : Bool
deriving DecidableEq, Repr

def msgDeleteWhereRequired : Str :=
  "WHERE conditions are required for DELETE operations. To delete all rows, use TRUNCATE mode instead.".data

def msgDestructive (mode : DeleteMode) : Str :=
  mode.upperName ++
    " is a destructive operation. Set \"confirmDestructive\" to true to proceed.".data

/-- The validation-and-assembly phase of `NeonDeleteDataTool.execute`
(lines 186–253 of the source): table validation; for `delete` mode the
mandatory-WHERE check and WHERE validation; for `truncate`/`drop` the
destructive-confirmation gate; then the mode's statement. -/
def NeonDeleteDataTool.plan (p : DeleteDataParams) :
    Except ToolErrorResponse SqlStatement :=
  let tableValidation := validateTableName p.table
  if !tableValidation.valid then
    .error (formatToolError opDelete
      (localError (joinOr tableValidation.errors "Invalid table name".data)) (some p.table))
  else if p.mode = DeleteMode.delete ∧ trimL p.whereConditions = [] then
    .error (formatToolError opDelete (localError msgDeleteWhereRequired) (some p.table))
  else if p.mode = DeleteMode.delete ∧ !(validateWhereClause p.whereConditions).valid then
    .error (formatToolError opDelete
      (localError (joinOr (validateWhereClause p.whereConditions).errors
        "Invalid WHERE clause".data)) (some p.table))
  else if (p.mode = DeleteMode.truncate ∨ p.mode = DeleteMode.drop) ∧ !p.confirmDestructive then
    .error (formatToolError opDelete (localError (msgDestructive p.mode)) (some p.table))
  else
    match p.mode with
    | .delete =>
      .ok ⟨"DELETE FROM \"".data ++ p.schema ++ "\".\"".data ++ p.table ++
        "\" WHERE ".data ++ p.whereConditions, []⟩
    | .truncate =>
      .ok ⟨"TRUNCATE TABLE \"".data ++ p.schema ++ "\".\"".data ++ p.table ++ "\"".data, []⟩
    | .drop =>
      .ok ⟨"DROP TABLE \"".data ++ p.schema ++ "\".\"".data ++ p.table ++ "\"".data, []⟩

/-- `NeonDeleteDataTool.execute` observed at its envelope boundary: for
`delete` mode `affectedRows` is the driver's row count (`rowCount || 0`);
for `truncate` and `drop` it is the sentinel `-1`. -/
def NeonDeleteDataTool.run (p : DeleteDataParams) (dbRowCount : Nat) : ToolResponse :=
  match NeonDeleteDataTool.plan p with
  | .error e => .error e
  | .ok _ =>
    let affectedRows : Int :=
      match p.mode with
      | .delete => dbRowCount
      | .truncate => -1
      | .drop => -1
    .modification (formatModificationResponse opDelete affectedRows (some p.table) none)

inductive QueryMode
  | single
  | transaction
  | independently
deriving DecidableEq, Repr

/-- Decoded parameters of the ExecuteRawSql tool
(`NeonExecuteSqlTool.execute`); the JSON parameter array is modelled as
already parsed. -/
structure ExecuteSqlParams where
  query : Str
  parameters : List Value
  queryMode : QueryMode
deriving DecidableEq, Repr

/-- The validation phase of `NeonExecuteSqlTool.execute` (lines 97–104 of
the source): `validateSqlQuery` short-circuits to the error envelope,
otherwise the raw query and its bound parameters go to the database
unchanged. -/
def NeonExecuteSqlTool.plan (p : ExecuteSqlParams) :
    Except ToolErrorResponse SqlStatement :=
  let queryValidation := validateSqlQuery p.query
  if !queryValidation.valid then
    .error (formatToolError opExecuteQuery
      (localError (joinOr queryValidation.errors "Invalid SQL query".data)) none)
  else .ok ⟨p.query, p.parameters⟩

/-- The error category of a plan's outcome: `some t` when the plan
short-circuited to an error envelope of category `t`, `none` when a
statement was built. -/
def planErrorType : Except ToolErrorResponse SqlStatement → Option ToolErrorType
  | .error e => some e.errorType
  | .ok _ => none

theorem dropWhile_eq_self_of (p : Char → Bool) (l : Str) (h : ∀ c ∈ l, p c = false) :
    l.dropWhile p = l := by
  cases l with
  | nil => rfl
  | cons a as => simp [List.dropWhile_cons, h a (List.mem_cons_self a as)]

theorem trimL_eq_self (l : Str) (h : ∀ c ∈ l, isWsp c = false) : trimL l = l := by
  unfold trimL
  rw [dropWhile_eq_self_of _ _ h,
    dropWhile_eq_self_of _ _ (fun c hc => h c (List.mem_reverse.mp hc)),
    List.reverse_reverse]

theorem mem_of_containsSub {t s : Str} (h : containsSub t s = true) : ∀ c ∈ s, c ∈ t := by
  have hinf : s <:+: t := by simpa [containsSub] using h
  exact fun c hc => hinf.subset hc

theorem containsSub_false_of_not_mem {t : Str} {x : Char} (h : x ∉ t) (s : Str)
    (hx : x ∈ s) : containsSub t s = false := by
  cases hc : containsSub t s with
  | false => rfl
  | true => exact absurd (mem_of_containsSub hc x hx) h

theorem identChar_of_matches {t : Str} (h : matchesIdent t = true) :
    ∀ d ∈ t, (d.isAlphanum || d = '_') = true := by
  match t with
  | [] => simp [matchesIdent] at h
  | c :: cs =>
    simp only [matchesIdent, Bool.and_eq_true] at h
    intro d hd
    rcases List.mem_cons.mp hd with rfl | hd'
    · rcases (by simpa using h.1 : d.isAlpha = true ∨ d = '_') with ha | rfl
      · simp [Char.isAlphanum, ha]
      · decide
    · exact List.all_eq_true.mp h.2 d hd'

theorem not_wsp_of_ident (d : Char) (h : (d.isAlphanum || d = '_') = true) :
    isWsp d = false := by
  cases hw : isWsp d with
  | false => rfl
  | true =>
    simp only [isWsp, Bool.or_eq_true, decide_eq_true_eq] at hw
    rcases hw with ((((rfl | rfl) | rfl) | rfl) | rfl) | rfl <;> exact absurd h (by decide)

theorem not_mem_of_all_ident {t : Str} (h : ∀ d ∈ t, (d.isAlphanum || d = '_') = true)
    (x : Char) (hx : (x.isAlphanum || x = '_') = false) : x ∉ t := fun hm => by
  rw [h x hm] at hx
  exact Bool.noConfusion hx

/-- Claim C6: `validateTableName` returns `valid: false` for every input
containing `;`, `--`, or `/*`, and for every empty/whitespace input; for
every input matching `[A-Za-z_][A-Za-z0-9_]*`, `validateTableName` and
`validateColumnName` return `valid: true`; `validateColumnName`
additionally accepts the literal `*` and otherwise applies the same
checks as `validateTableName`. -/
theorem c6_identifier_validators (t : Str) :
    ((containsSub t ";".data || containsSub t "--".data || containsSub t "/*".data) = true →
      (validateTableName t).valid = false) ∧
    (trimL t = [] → (validateTableName t).valid = false) ∧
    (matchesIdent t = true →
      (validateTableName t).valid = true ∧ (validateColumnName t).valid = true) ∧
    (validateColumnName "*".data).valid = true ∧
    (t ≠ "*".data → (validateColumnName t).valid = (validateTableName t).valid) := by
  refine ⟨?_, ?_, ?_, by decide, ?_⟩
  · intro h
    by_cases h0 : trimL t = []
    · simp [validateTableName, h0]
    · simp [validateTableName, h0, h]
  · intro h
    simp [validateTableName, h]
  · intro h
    have hall := identChar_of_matches h
    have hwsp : ∀ c ∈ t, isWsp c = false := fun c hc => not_wsp_of_ident c (hall c hc)
    have hne : t ≠ [] := by
      cases t with
      | nil => simp [matchesIdent] at h
      | cons a as => simp
    have htrim : trimL t = t := trimL_eq_self t hwsp
    have h1 : containsSub t ";".data = false :=
      containsSub_false_of_not_mem (not_mem_of_all_ident hall ';' (by decide)) _ (by decide)
    have h2 : containsSub t "--".data = false :=
      containsSub_false_of_not_mem (not_mem_of_all_ident hall '-' (by decide)) _ (by decide)
    have h3 : containsSub t "/*".data = false :=
      containsSub_false_of_not_mem (not_mem_of_all_ident hall '/' (by decide)) _ (by decide)
    constructor
    · simp [validateTableName, htrim, hne, h1, h2, h3, h]
    · by_cases hstar : t = "*".data
      · simp [validateColumnName, hstar]
      · simp [validateColumnName, hstar, htrim, hne, h1, h2, h3, h]
  · intro hstar
    by_cases h0 : trimL t = []
    · simp [validateColumnName, validateTableName, hstar, h0]
    · by_cases h1 : (containsSub t ";".data || containsSub t "--".data ||
        containsSub t "/*".data) = true
      · simp [validateColumnName, validateTableName, hstar, h0, h1]
      · by_cases h2 : matchesIdent t = true <;>
          simp [validateColumnName, validateTableName, hstar, h0, h1, h2]

/-- Witness for C6 at concrete inputs: an injection-shaped name is
rejected, a grammatical identifier is accepted by both validators. -/
theorem c6_witness :
    (validateTableName "users; --".data).valid = false ∧
    (validateTableName "user_names2".data).valid = true ∧
    (validateColumnName "user_names2".data).valid = true :=
  ⟨(c6_identifier_validators "users; --".data).1 (by decide),
   ((c6_identifier_validators "user_names2".data).2.2.1 (by decide)).1,
   ((c6_identifier_validators "user_names2".data).2.2.1 (by decide)).2⟩

theorem filterMap_if_eq_nil_iff (L : List Str) (p : Str → Bool) (m : Str → Str) :
    (L.filterMap (fun k => if p k = true then some (m k) else none)) = [] ↔
      ∀ k ∈ L, p k = false := by
  rw [List.filterMap_eq_nil_iff]
  constructor
  · intro hf k hk
    cases hp : p k with
    | false => rfl
    | true => simpa [hp] using hf k hk
  · intro hf k hk
    simp [hf k hk]

theorem mem_filterMap_if (L : List Str) (p : Str → Bool) (m : Str → Str) (k : Str)
    (hk : k ∈ L) (hp : p k = true) :
    m k ∈ L.filterMap (fun k => if p k = true then some (m k) else none) :=
  List.mem_filterMap.mpr ⟨k, hk, by simp [hp]⟩

/-- Claim C5: `validateWhereClause` accepts every empty or
whitespace-only fragment, and rejects a non-empty fragment exactly when
its upper-cased text contains one of the dangerous keywords
(`DROP`, `DELETE`, `TRUNCATE`, `ALTER`, `CREATE`, `EXEC`, `EXECUTE`,
`"; "`) or the raw text contains a comment marker (`--`, `/*`). -/
theorem c5_where_clause (w : Str) :
    (trimL w = [] → (validateWhereClause w).valid = true) ∧
    (trimL w ≠ [] →
      ((validateWhereClause w).valid = false ↔
        (∃ k ∈ dangerousWhereKeywords, containsSub (toUpperL w) k = true) ∨
          (containsSub w "--".data || containsSub w "/*".data) = true)) := by
  constructor
  · intro h
    simp [validateWhereClause, h]
  · intro h
    simp only [validateWhereClause, if_neg h]
    by_cases hcm : (containsSub w "--".data || containsSub w "/*".data) = true
    · -- the comment branch contributes an error, so the result is invalid
      have hne : (dangerousWhereKeywords.filterMap (fun keyword =>
          if containsSub (toUpperL w) keyword = true then some (msgWhereDangerous keyword)
          else none) ++ [msgWhereComment]).length > 0 := by simp
      simp [hcm, hne]
    · by_cases hkw : ∀ k ∈ dangerousWhereKeywords, containsSub (toUpperL w) k = false
      · have h0 : (dangerousWhereKeywords.filterMap (fun keyword =>
            if containsSub (toUpperL w) keyword = true then some (msgWhereDangerous keyword)
            else none)) = [] := (filterMap_if_eq_nil_iff _ _ _).mpr hkw
        have hkw' : ¬ ∃ k ∈ dangerousWhereKeywords, containsSub (toUpperL w) k = true := by
          rintro ⟨k, hk, hc⟩
          rw [hkw k hk] at hc
          exact Bool.noConfusion hc
        simp [hcm, h0, hkw']
      · push_neg at hkw
        obtain ⟨k, hk, hc⟩ := hkw
        have hc' : containsSub (toUpperL w) k = true := by
          cases hb : containsSub (toUpperL w) k with
          | false => exact absurd hb hc
          | true => rfl
        have hmem := mem_filterMap_if dangerousWhereKeywords
          (fun k => containsSub (toUpperL w) k) msgWhereDangerous k hk hc'
        have hne : (dangerousWhereKeywords.filterMap (fun keyword =>
            if containsSub (toUpperL w) keyword = true then some (msgWhereDangerous keyword)
            else none) ++ (if (containsSub w "--".data || containsSub w "/*".data) = true
              then [msgWhereComment] else [])) ≠ [] :=
          List.ne_nil_of_mem (List.mem_append_left _ hmem)
        have hlen := List.length_pos.mpr hne
        simp only [gt_iff_lt, hlen, if_true]
        constructor
        · intro _
          exact Or.inl ⟨k, hk, hc'⟩
        · intro _
          trivial

/-- Witness for C5: a whitespace-only fragment is accepted; a fragment
containing the dangerous keyword `DROP` is rejected. -/
theorem c5_witness :
    (validateWhereClause "  ".data).valid = true ∧
    (validateWhereClause "id = 1 OR drop everything".data).valid = false :=
  ⟨(c5_where_clause "  ".data).1 (by decide),
   ((c5_where_clause "id = 1 OR drop everything".data).2 (by decide)).mpr
     (Or.inl ⟨"DROP".data, by decide, by decide⟩)⟩

/-- Claim C7: `categorizeError` evaluates the category predicates in the
spec's fixed precedence order and returns the first match; a failure
whose string code is `ETIMEDOUT` is `connection_error` regardless of its
message; a failure whose message contains both `does not exist` and
`relation` is never classified as a category listed after
`invalid_table`. -/
theorem c7_categorize_precedence (e : DbError) :
    categorizeError e = firstMatchCat categoryTable e ∧
    (e.code = some "ETIMEDOUT".data → categorizeError e = ToolErrorType.connection_error) ∧
    (containsSub e.errorMessage "does not exist".data = true →
      containsSub e.errorMessage "relation".data = true →
      categorizeError e = ToolErrorType.connection_error ∨
        categorizeError e = ToolErrorType.authentication_error ∨
        categorizeError e = ToolErrorType.invalid_table) := by
  refine ⟨?_, ?_, ?_⟩
  · simp [categorizeError, categoryTable, firstMatchCat]
  · intro h
    have hc : connectionPred e = true := by
      simp [connectionPred, DbError.errorCodeStr, h]
    simp [categorizeError, hc]
  · intro h1 h2
    by_cases hc : connectionPred e = true
    · exact Or.inl (by simp [categorizeError, hc])
    · by_cases ha : authenticationPred e = true
      · exact Or.inr (Or.inl (by simp [categorizeError, hc, ha]))
      · have ht : invalidTablePred e = true := by
          simp [invalidTablePred, h1, h2]
        exact Or.inr (Or.inr (by simp [categorizeError, hc, ha, ht]))

/-- Witness for C7: a failure with code `ETIMEDOUT` and a message
containing `timed out` is `connection_error` (not `timeout`), and a
relation-does-not-exist message without an earlier-matching code or
keyword is `invalid_table`. -/
theorem c7_witness :
    categorizeError ⟨some "connect timed out".data, some "ETIMEDOUT".data⟩ =
      ToolErrorType.connection_error ∧
    (categorizeError ⟨some "relation \x22ghost\x22 does not exist".data, none⟩ =
        ToolErrorType.connection_error ∨
      categorizeError ⟨some "relation \x22ghost\x22 does not exist".data, none⟩ =
        ToolErrorType.authentication_error ∨
      categorizeError ⟨some "relation \x22ghost\x22 does not exist".data, none⟩ =
        ToolErrorType.invalid_table) :=
  ⟨(c7_categorize_precedence ⟨some "connect timed out".data, some "ETIMEDOUT".data⟩).2.1 rfl,
   (c7_categorize_precedence ⟨some "relation \x22ghost\x22 does not exist".data, none⟩).2.2
     (by decide) (by decide)⟩

/-- Claim C3: a Delete invocation in `truncate` or `drop` mode without
`confirmDestructive` returns an Error envelope before any statement is
built; with `confirmDestructive` true (and a valid table name) it builds
the `TRUNCATE TABLE` / `DROP TABLE` statement and the success envelope
reports the sentinel `affectedRows = -1`, whatever row count the driver
would report. -/
theorem c3_destructive_confirmation (p : DeleteDataParams) (db : Nat) :
    ((p.mode = DeleteMode.truncate ∨ p.mode = DeleteMode.drop) →
      p.confirmDestructive = false →
      ∃ e, NeonDeleteDataTool.plan p = Except.error e) ∧
    ((validateTableName p.table).valid = true → p.confirmDestructive = true →
      (p.mode = DeleteMode.truncate →
        NeonDeleteDataTool.plan p = Except.ok
          ⟨"TRUNCATE TABLE \"".data ++ p.schema ++ "\".\"".data ++ p.table ++ "\"".data, []⟩ ∧
        NeonDeleteDataTool.run p db = ToolResponse.modification
          (formatModificationResponse opDelete (-1) (some p.table) none)) ∧
      (p.mode = DeleteMode.drop →
        NeonDeleteDataTool.plan p = Except.ok
          ⟨"DROP TABLE \"".data ++ p.schema ++ "\".\"".data ++ p.table ++ "\"".data, []⟩ ∧
        NeonDeleteDataTool.run p db = ToolResponse.modification
          (formatModificationResponse opDelete (-1) (some p.table) none))) := by
  constructor
  · intro hm hc
    cases hv : (validateTableName p.table).valid with
    | false =>
      have hplan : NeonDeleteDataTool.plan p = Except.error
          (formatToolError opDelete
            (localError (joinOr (validateTableName p.table).errors "Invalid table name".data))
            (some p.table)) := by
        simp [NeonDeleteDataTool.plan, hv]
      exact ⟨_, hplan⟩
    | true =>
      rcases hm with h | h
      · have hplan : NeonDeleteDataTool.plan p = Except.error
            (formatToolError opDelete
              (localError (msgDestructive DeleteMode.truncate)) (some p.table)) := by
          simp [NeonDeleteDataTool.plan, hv, h, hc]
        exact ⟨_, hplan⟩
      · have hplan : NeonDeleteDataTool.plan p = Except.error
            (formatToolError opDelete
              (localError (msgDestructive DeleteMode.drop)) (some p.table)) := by
          simp [NeonDeleteDataTool.plan, hv, h, hc]
        exact ⟨_, hplan⟩
  · intro hv hc
    constructor
    · intro h
      have hplan : NeonDeleteDataTool.plan p = Except.ok
          ⟨"TRUNCATE TABLE \"".data ++ p.schema ++ "\".\"".data ++ p.table ++ "\"".data, []⟩ := by
        simp [NeonDeleteDataTool.plan, hv, h, hc]
      exact ⟨hplan, by simp [NeonDeleteDataTool.run, hplan, h]⟩
    · intro h
      have hplan : NeonDeleteDataTool.plan p = Except.ok
          ⟨"DROP TABLE \"".data ++ p.schema ++ "\".\"".data ++ p.table ++ "\"".data, []⟩ := by
        simp [NeonDeleteDataTool.plan, hv, h, hc]
      exact ⟨hplan, by simp [NeonDeleteDataTool.run, hplan, h]⟩

/-- Witness for C3: an unconfirmed truncate is rejected; a confirmed
truncate builds the `TRUNCATE TABLE` statement and `run` reports the
sentinel `-1` even though the driver reported 7 rows. -/
theorem c3_witness :
    (∃ e, NeonDeleteDataTool.plan
      ⟨"public".data, "users".data, DeleteMode.truncate, [], false⟩ = Except.error e) ∧
    (NeonDeleteDataTool.plan
        ⟨"public".data, "users".data, DeleteMode.truncate, [], true⟩ = Except.ok
          ⟨"TRUNCATE TABLE \"public\".\"users\"".data, []⟩ ∧
      NeonDeleteDataTool.run
        ⟨"public".data, "users".data, DeleteMode.truncate, [], true⟩ 7 =
        ToolResponse.modification
          (formatModificationResponse opDelete (-1) (some "users".data) none)) :=
  ⟨(c3_destructive_confirmation
      ⟨"public".data, "users".data, DeleteMode.truncate, [], false⟩ 0).1 (Or.inl rfl) rfl,
   ((c3_destructive_confirmation
      ⟨"public".data, "users".data, DeleteMode.truncate, [], true⟩ 7).2
        (by decide) rfl).1 rfl⟩

/-- Claim C10: a confirmed `truncate`/`drop` Delete neither validates nor
incorporates the caller's WHERE fragment: for every fragment `w`, the
assembled statement is exactly `TRUNCATE TABLE "schema"."table"`
(respectively `DROP TABLE "schema"."table"`). -/
theorem c10_truncate_ignores_where (p : DeleteDataParams)
    (hv : (validateTableName p.table).valid = true) (hc : p.confirmDestructive = true) :
    (p.mode = DeleteMode.truncate → ∀ w : Str,
      NeonDeleteDataTool.plan { p with whereConditions := w } = Except.ok
        ⟨"TRUNCATE TABLE \"".data ++ p.schema ++ "\".\"".data ++ p.table ++ "\"".data, []⟩) ∧
    (p.mode = DeleteMode.drop → ∀ w : Str,
      NeonDeleteDataTool.plan { p with whereConditions := w } = Except.ok
        ⟨"DROP TABLE \"".data ++ p.schema ++ "\".\"".data ++ p.table ++ "\"".data, []⟩) := by
  constructor
  · intro h w
    simp [NeonDeleteDataTool.plan, hv, h, hc]
  · intro h w
    simp [NeonDeleteDataTool.plan, hv, h, hc]

/-- Witness for C10: even a WHERE fragment that `validateWhereClause`
rejects is ignored by a confirmed truncate, which truncates the whole
table. -/
theorem c10_witness :
    (validateWhereClause "id = 1; DROP TABLE users --".data).valid = false ∧
    NeonDeleteDataTool.plan
      ⟨"public".data, "users".data, DeleteMode.truncate,
        "id = 1; DROP TABLE users --".data, true⟩ = Except.ok
      ⟨"TRUNCATE TABLE \"public\".\"users\"".data, []⟩ :=
  ⟨by decide,
   (c10_truncate_ignores_where
      ⟨"public".data, "users".data, DeleteMode.truncate, [], true⟩
      (by decide) rfl).1 rfl "id = 1; DROP TABLE users --".data⟩

set_option maxRecDepth 100000 in
/-- Claim C1 (code-bug exhibit): the locally synthesized validation
failures are routed through `categorizeError`, which returns
`validation_error` only when the message text happens to contain
`invalid` or `validation`.  At the repository's own documented test
input — ExecuteRawSql with `SELECT * FROM users; DROP TABLE users` —
and at an Update with an empty WHERE fragment, the Error envelope
carries `errorType = unknown_error`, not the documented
`validation_error`. -/
theorem c1_validation_error_bug :
    planErrorType (NeonExecuteSqlTool.plan
      ⟨"SELECT * FROM users; DROP TABLE users".data, [], QueryMode.single⟩) =
      some ToolErrorType.unknown_error ∧
    planErrorType (NeonUpdateDataTool.plan
      ⟨"public".data, "users".data, [("name".data, Value.str "a".data)], [], false⟩) =
      some ToolErrorType.unknown_error := by
  constructor
  · decide
  · decide

set_option maxRecDepth 100000 in
/-- Counterexample to C2: identifiers reach the assembled SQL without any
Validator running on them — Select's `sortBy` column (`x;y`), the schema
name (`ev;il`), and the Update/Insert row-object key column names
(`a;b`), each rejected by the corresponding identifier validator, are
interpolated verbatim into the statement text. -/
theorem c2_unvalidated_interpolation_counterexample :
    ((validateColumnName "x;y".data).valid = false ∧
      NeonSelectQueryTool.plan
        ⟨"public".data, "users".data, "*".data, [], "x;y".data, SortDirection.asc, 5⟩ =
        Except.ok ⟨"SELECT * FROM \"public\".\"users\" ORDER BY \"x;y\" ASC LIMIT 5".data,
          []⟩ ∧
      containsSub "SELECT * FROM \"public\".\"users\" ORDER BY \"x;y\" ASC LIMIT 5".data
        "x;y".data = true) ∧
    ((validateTableName "ev;il".data).valid = false ∧
      NeonSelectQueryTool.plan
        ⟨"ev;il".data, "users".data, "*".data, [], [], SortDirection.asc, 5⟩ =
        Except.ok ⟨"SELECT * FROM \"ev;il\".\"users\" LIMIT 5".data, []⟩ ∧
      containsSub "SELECT * FROM \"ev;il\".\"users\" LIMIT 5".data "ev;il".data = true) ∧
    ((validateColumnName "a;b".data).valid = false ∧
      NeonUpdateDataTool.plan
        ⟨"public".data, "users".data, [("a;b".data, Value.int 1)], "id = 1".data, false⟩ =
        Except.ok ⟨"UPDATE \"public\".\"users\" SET \"a;b\" = $1 WHERE id = 1".data,
          [Value.int 1]⟩ ∧
      containsSub "UPDATE \"public\".\"users\" SET \"a;b\" = $1 WHERE id = 1".data
        "a;b".data = true) ∧
    (NeonInsertDataTool.plan
        ⟨"public".data, "users".data, [[("a;b".data, Value.int 1)]], false, false⟩ =
        Except.ok ⟨"INSERT INTO \"public\".\"users\" (\"a;b\") VALUES ($1)".data,
          [Value.int 1]⟩ ∧
      containsSub "INSERT INTO \"public\".\"users\" (\"a;b\") VALUES ($1)".data
        "a;b".data = true) := by
  exact ⟨⟨by decide, by rfl, by decide⟩, ⟨by decide, by rfl, by decide⟩,
    ⟨by decide, by rfl, by decide⟩, ⟨by rfl, by decide⟩⟩

/-- Claim C2 as amended: the identifiers that do pass a Validator before
interpolation are the table name (Select, Insert, Update and Delete; the
ExecuteRawSql operation interpolates no identifier) and the Select
column list, and row values — including ExecuteRawSql's parameter
array — are always passed as bound parameters, never interpolated; but
Select's `sortBy`, the schema name, and the Insert/Update row-object
keys are interpolated without validation. -/
theorem c2_identifiers_amended (pS : SelectQueryParams) (pU : UpdateDataParams)
    (pI : InsertDataParams) (pD : DeleteDataParams) (pE : ExecuteSqlParams)
    (sS sU sI sD sE : SqlStatement)
    (hS : NeonSelectQueryTool.plan pS = Except.ok sS)
    (hU : NeonUpdateDataTool.plan pU = Except.ok sU)
    (hI : NeonInsertDataTool.plan pI = Except.ok sI)
    (hD : NeonDeleteDataTool.plan pD = Except.ok sD)
    (hE : NeonExecuteSqlTool.plan pE = Except.ok sE) :
    ((validateTableName pS.table).valid = true ∧
     (validateColumnList pS.columns).valid = true ∧
     (validateWhereClause pS.whereConditions).valid = true ∧
     (validateLimit (some pS.limit)).valid = true ∧
     sS.values = []) ∧
    ((validateTableName pU.table).valid = true ∧
     (validateWhereClause pU.whereConditions).valid = true ∧
     sU.values = (pU.values.map Prod.fst).map
       (fun col => (pU.values.lookup col).getD Value.null)) ∧
    ((validateTableName pI.table).valid = true ∧
     sI.values = pI.data.flatMap (fun row =>
       ((pI.data.headD []).map Prod.fst).map
         (fun col => (row.lookup col).getD Value.null))) ∧
    ((validateTableName pD.table).valid = true ∧
     sD.values = []) ∧
    (sE.query = pE.query ∧ sE.values = pE.parameters) := by
  refine ⟨?_, ?_, ?_, ?_, ?_⟩
  · simp only [NeonSelectQueryTool.plan] at hS
    split at hS
    case isTrue h1 => exact Except.noConfusion hS
    case isFalse h1 =>
      split at hS
      case isTrue h2 => exact Except.noConfusion hS
      case isFalse h2 =>
        split at hS
        case isTrue h3 => exact Except.noConfusion hS
        case isFalse h3 =>
          split at hS
          case isTrue h4 => exact Except.noConfusion hS
          case isFalse h4 =>
            exact ⟨by simpa using h1, by simpa using h2, by simpa using h3,
              by simpa using h4, congrArg SqlStatement.values (Except.ok.inj hS).symm⟩
  · simp only [NeonUpdateDataTool.plan] at hU
    split at hU
    case isTrue h1 => exact Except.noConfusion hU
    case isFalse h1 =>
      split at hU
      case isTrue h2 => exact Except.noConfusion hU
      case isFalse h2 =>
        split at hU
        case isTrue h3 => exact Except.noConfusion hU
        case isFalse h3 =>
          split at hU
          case isTrue h4 => exact Except.noConfusion hU
          case isFalse h4 =>
            exact ⟨by simpa using h1, by simpa using h3,
              congrArg SqlStatement.values (Except.ok.inj hU).symm⟩
  · simp only [NeonInsertDataTool.plan] at hI
    split at hI
    case isTrue h1 => exact Except.noConfusion hI
    case isFalse h1 =>
      split at hI
      case isTrue h2 => exact Except.noConfusion hI
      case isFalse h2 =>
        split at hI
        case isTrue h3 => exact Except.noConfusion hI
        case isFalse h3 =>
          exact ⟨by simpa using h1, congrArg SqlStatement.values (Except.ok.inj hI).symm⟩
  · simp only [NeonDeleteDataTool.plan] at hD
    split at hD
    case isTrue h1 => exact Except.noConfusion hD
    case isFalse h1 =>
      split at hD
      case isTrue h2 => exact Except.noConfusion hD
      case isFalse h2 =>
        split at hD
        case isTrue h3 => exact Except.noConfusion hD
        case isFalse h3 =>
          split at hD
          case isTrue h4 => exact Except.noConfusion hD
          case isFalse h4 =>
            refine ⟨by simpa using h1, ?_⟩
            cases hm : pD.mode <;> rw [hm] at hD <;>
              exact congrArg SqlStatement.values (Except.ok.inj hD).symm
  · simp only [NeonExecuteSqlTool.plan] at hE
    split at hE
    case isTrue h1 => exact Except.noConfusion hE
    case isFalse h1 =>
      exact ⟨congrArg SqlStatement.query (Except.ok.inj hE).symm,
        congrArg SqlStatement.values (Except.ok.inj hE).symm⟩

set_option maxRecDepth 100000 in
/-- Witness for the amended C2 at concrete
Select/Update/Insert/Delete/ExecuteRawSql inputs whose plans succeed. -/
theorem c2_amended_witness :
    (NeonSelectQueryTool.plan
        ⟨"public".data, "users".data, "*".data, [], [], SortDirection.asc, 100⟩ =
        Except.ok ⟨"SELECT * FROM \"public\".\"users\" LIMIT 100".data, []⟩ ∧
      NeonUpdateDataTool.plan
        ⟨"public".data, "users".data, [("name".data, Value.str "ann".data)],
          "id = 1".data, false⟩ =
        Except.ok ⟨"UPDATE \"public\".\"users\" SET \"name\" = $1 WHERE id = 1".data,
          [Value.str "ann".data]⟩ ∧
      NeonInsertDataTool.plan
        ⟨"public".data, "users".data, [[("email".data, Value.str "x".data)]],
          false, false⟩ =
        Except.ok ⟨"INSERT INTO \"public\".\"users\" (\"email\") VALUES ($1)".data,
          [Value.str "x".data]⟩ ∧
      NeonDeleteDataTool.plan
        ⟨"public".data, "users".data, DeleteMode.delete, "id = 1".data, false⟩ =
        Except.ok ⟨"DELETE FROM \"public\".\"users\" WHERE id = 1".data, []⟩ ∧
      NeonExecuteSqlTool.plan ⟨"SELECT 1".data, [Value.int 7], QueryMode.single⟩ =
        Except.ok ⟨"SELECT 1".data, [Value.int 7]⟩) ∧
    (validateTableName "users".data).valid = true :=
  ⟨⟨by rfl, by rfl, by rfl, by rfl, by rfl⟩,
   (c2_identifiers_amended
      ⟨"public".data, "users".data, "*".data, [], [], SortDirection.asc, 100⟩
      ⟨"public".data, "users".data, [("name".data, Value.str "ann".data)],
        "id = 1".data, false⟩
      ⟨"public".data, "users".data, [[("email".data, Value.str "x".data)]], false, false⟩
      ⟨"public".data, "users".data, DeleteMode.delete, "id = 1".data, false⟩
      ⟨"SELECT 1".data, [Value.int 7], QueryMode.single⟩
      ⟨"SELECT * FROM \"public\".\"users\" LIMIT 100".data, []⟩
      ⟨"UPDATE \"public\".\"users\" SET \"name\" = $1 WHERE id = 1".data,
        [Value.str "ann".data]⟩
      ⟨"INSERT INTO \"public\".\"users\" (\"email\") VALUES ($1)".data,
        [Value.str "x".data]⟩
      ⟨"DELETE FROM \"public\".\"users\" WHERE id = 1".data, []⟩
      ⟨"SELECT 1".data, [Value.int 7]⟩
      (by rfl) (by rfl) (by rfl) (by rfl) (by rfl)).1.1⟩

/-- Counterexample to C4: `"SELECT 1; "` (trailing space) contains
exactly one `;` which is not the final character of the query, yet
`validateSqlQuery` accepts it — the source tests `endsWith(';')` on the
trimmed text. -/
theorem c4_trailing_space_counterexample :
    (validateSqlQuery "SELECT 1; ".data).valid = true ∧
    "SELECT 1; ".data.count ';' = 1 ∧
    "SELECT 1; ".data.getLast? ≠ some ';' := by
  refine ⟨by decide, by decide, by decide⟩

theorem multiStatement_iff (q : Str) :
    multiStatement q = true ↔
      (q.count ';' > 1 ∨ (q.count ';' = 1 ∧ ¬((trimL q).getLast? = some ';'))) := by
  simp [multiStatement]

/-- Claim C4 as amended: `validateSqlQuery` accepts a query exactly when
it is non-empty after trimming, its first token is one of the allowed
first words, its upper-cased trimmed text contains no dangerous
statement, it contains at most one `;`, and a single `;` is the final
non-whitespace character (the `endsWith` test runs on the trimmed text);
and ExecuteRawSql short-circuits to an Error envelope whenever
`validateSqlQuery` rejects. -/
theorem c4_sql_query_amended :
    (∀ q : Str,
      (validateSqlQuery q).valid = true ↔
        (trimL q ≠ [] ∧
         allowedFirstWords.contains (firstWordOf (toUpperL (trimL q))) = true ∧
         (∀ k ∈ dangerousSqlKeywords, containsSub (toUpperL (trimL q)) k = false) ∧
         q.count ';' ≤ 1 ∧
         (q.count ';' = 1 → (trimL q).getLast? = some ';'))) ∧
    (∀ p : ExecuteSqlParams, (validateSqlQuery p.query).valid = false →
      ∃ e, NeonExecuteSqlTool.plan p = Except.error e) := by
  constructor
  · intro q
    by_cases h0 : trimL q = []
    · simp [validateSqlQuery, h0]
    · by_cases h1 : allowedFirstWords.contains (firstWordOf (toUpperL (trimL q))) = true
      · have h1m : firstWordOf (toUpperL (trimL q)) ∈ allowedFirstWords := by
          simpa using h1
        by_cases h2 : multiStatement q = true
        · have hval : (validateSqlQuery q).valid = false := by
            simp [validateSqlQuery, h0, h1m, h2]
          rw [hval]
          simp only [Bool.false_eq_true, false_iff]
          rintro ⟨-, -, -, hle, himp⟩
          rcases (multiStatement_iff q).mp h2 with hgt | ⟨hone, hend⟩
          · omega
          · exact hend (himp hone)
        · have h2' : multiStatement q = false := by
            revert h2; cases multiStatement q <;> simp
          have hP : ¬(q.count ';' > 1 ∨
              (q.count ';' = 1 ∧ ¬((trimL q).getLast? = some ';'))) := fun hp => by
            rw [(multiStatement_iff q).mpr hp] at h2'
            exact Bool.noConfusion h2'
          push_neg at hP
          by_cases h3 : ∀ k ∈ dangerousSqlKeywords, containsSub (toUpperL (trimL q)) k = false
          · have herr : (dangerousSqlKeywords.filterMap fun keyword =>
                if containsSub (toUpperL (trimL q)) keyword = true then
                  some (msgSqlDangerous keyword) else none) = [] :=
              (filterMap_if_eq_nil_iff _ _ _).mpr h3
            have hval : (validateSqlQuery q).valid = true := by
              simp [validateSqlQuery, h0, h1m, h2', herr]
            rw [hval]
            simp only [true_iff]
            exact ⟨h0, h1, h3, by omega, hP.2⟩
          · push_neg at h3
            obtain ⟨k, hk, hc⟩ := h3
            have hc' : containsSub (toUpperL (trimL q)) k = true := by
              cases hb : containsSub (toUpperL (trimL q)) k with
              | false => exact absurd hb hc
              | true => rfl
            have hmem := mem_filterMap_if dangerousSqlKeywords
              (fun k => containsSub (toUpperL (trimL q)) k) msgSqlDangerous k hk hc'
            have hne : (dangerousSqlKeywords.filterMap fun keyword =>
                if containsSub (toUpperL (trimL q)) keyword = true then
                  some (msgSqlDangerous keyword) else none) ≠ [] :=
              List.ne_nil_of_mem hmem
            have hlen := List.length_pos.mpr hne
            have hval : (validateSqlQuery q).valid = false := by
              simp [validateSqlQuery, h0, h1m, h2', hlen]
            rw [hval]
            simp only [Bool.false_eq_true, false_iff]
            rintro ⟨-, -, hall, -, -⟩
            rw [hall k hk] at hc'
            exact Bool.noConfusion hc'
      · have h1' : allowedFirstWords.contains (firstWordOf (toUpperL (trimL q))) = false := by
          revert h1; cases allowedFirstWords.contains (firstWordOf (toUpperL (trimL q))) <;> simp
        have h1m : firstWordOf (toUpperL (trimL q)) ∉ allowedFirstWords := by
          simpa using h1'
        have hval : (validateSqlQuery q).valid = false := by
          simp [validateSqlQuery, h0, h1m]
        rw [hval]
        simp only [Bool.false_eq_true, false_iff]
        rintro ⟨-, hcontains, -⟩
        rw [h1'] at hcontains
        exact Bool.noConfusion hcontains
  · intro p hval
    have hplan : NeonExecuteSqlTool.plan p = Except.error
        (formatToolError opExecuteQuery
          (localError (joinOr (validateSqlQuery p.query).errors "Invalid SQL query".data))
          none) := by
      simp [NeonExecuteSqlTool.plan, hval]
    exact ⟨_, hplan⟩

/-- Witness for the amended C4: the repository's documented
multi-statement injection attempt is rejected and ExecuteRawSql
short-circuits; a plain bounded query is accepted. -/
theorem c4_witness :
    (∃ e, NeonExecuteSqlTool.plan
      ⟨"SELECT * FROM users; DROP TABLE users".data, [], QueryMode.single⟩ =
        Except.error e) ∧
    (validateSqlQuery "SELECT id FROM users".data).valid = true :=
  ⟨c4_sql_query_amended.2
     ⟨"SELECT * FROM users; DROP TABLE users".data, [], QueryMode.single⟩ (by decide),
   (c4_sql_query_amended.1 "SELECT id FROM users".data).mpr
     ⟨by decide, by decide, by decide, by decide, by decide⟩⟩

/-- Counterexample to C8: the JavaScript truthiness test
`options?.maxRows ? … : false` treats a supplied cap of `0` as no cap:
with zero rows and cap `0` the cap is supplied and `rowCount` has
reached it, yet `truncated` is `false`. -/
theorem c8_zero_cap_counterexample :
    (formatQueryResponse opSelect [] none (some 0)).truncated = false ∧
    ((formatQueryResponse opSelect [] none (some 0)).rowCount : Int) ≥ 0 := by
  refine ⟨by decide, by decide⟩

/-- Claim C8 as amended: `rowCount` is the number of rows, `columns` the
key set of the first row (empty without rows), and `truncated` is true
iff a nonzero row cap was supplied and `rowCount` reached it (a cap of
`0` is falsy in the source and counts as no cap); the Select operation
feeds its `limit` as the cap of the success envelope. -/
theorem c8_truncation_amended (data : List Row) (tbl : Option Str) (cap : Option Int) :
    (formatQueryResponse opSelect data tbl cap).rowCount = data.length ∧
    (formatQueryResponse opSelect data tbl cap).columns =
      (match data with
       | [] => ([] : List Str)
       | r :: _ => r.map Prod.fst) ∧
    ((formatQueryResponse opSelect data tbl cap).truncated = true ↔
      ∃ m, cap = some m ∧ m ≠ 0 ∧ (data.length : Int) ≥ m) ∧
    (∀ p : SelectQueryParams, ∀ rows : List Row, ∀ s,
      NeonSelectQueryTool.plan p = Except.ok s →
      NeonSelectQueryTool.run p rows =
        ToolResponse.query (formatQueryResponse opSelect rows (some p.table) (some p.limit))) := by
  refine ⟨rfl, rfl, ?_, ?_⟩
  · cases cap with
    | none => simp [formatQueryResponse]
    | some m =>
      by_cases hm : m = 0
      · simp [formatQueryResponse, hm]
      · simp [formatQueryResponse, hm]
  · intro p rows s h
    simp [NeonSelectQueryTool.run, h]

/-- Witness for the amended C8 at the spec's scenario: a Select with
limit 2 whose table holds exactly 2 matching rows reports
`rowCount = 2` and `truncated = true`. -/
theorem c8_witness :
    NeonSelectQueryTool.run
      ⟨"public".data, "users".data, "*".data, [], [], SortDirection.asc, 2⟩
      [[("id".data, Value.int 1)], [("id".data, Value.int 2)]] =
      ToolResponse.query (formatQueryResponse opSelect
        [[("id".data, Value.int 1)], [("id".data, Value.int 2)]]
        (some "users".data) (some 2)) ∧
    (formatQueryResponse opSelect
      [[("id".data, Value.int 1)], [("id".data, Value.int 2)]]
      (some "users".data) (some 2)).truncated = true ∧
    (formatQueryResponse opSelect
      [[("id".data, Value.int 1)], [("id".data, Value.int 2)]]
      (some "users".data) (some 2)).rowCount = 2 :=
  ⟨(c8_truncation_amended [] none none).2.2.2
     ⟨"public".data, "users".data, "*".data, [], [], SortDirection.asc, 2⟩
     [[("id".data, Value.int 1)], [("id".data, Value.int 2)]]
     ⟨"SELECT * FROM \"public\".\"users\" LIMIT 2".data, []⟩ (by rfl),
   (c8_truncation_amended [[("id".data, Value.int 1)], [("id".data, Value.int 2)]]
      (some "users".data) (some 2)).2.2.1.mpr ⟨2, rfl, by decide, by decide⟩,
   ((c8_truncation_amended [[("id".data, Value.int 1)], [("id".data, Value.int 2)]]
      (some "users".data) (some 2)).1).trans (by decide)⟩

/-- Counterexample to C9: `validateSqlQuery` stops at its first-word
check — `DROP TABLE x` also violates the dangerous-statement check, but
only the first-word error is reported, so violations are not all
accumulated. -/
theorem c9_early_stop_counterexample :
    (validateSqlQuery "DROP TABLE x".data).errors = [msgSqlFirstWord] ∧
    containsSub (toUpperL (trimL "DROP TABLE x".data)) "DROP TABLE".data = true ∧
    msgSqlDangerous "DROP TABLE".data ∉ (validateSqlQuery "DROP TABLE x".data).errors := by
  refine ⟨by decide, by decide, by decide⟩

/-- Claim C9 as amended: every validator is a pure function of its
input; `validateWhereClause` accumulates one error per dangerous keyword
present plus the comment-marker error, and `validateColumnList`
aggregates the errors of every column of the list, while
`validateTableName`, `validateColumnName`, `validateLimit` and the
first-word/multi-statement stages of `validateSqlQuery` return at the
first failing check. -/
theorem c9_accumulation_amended (w csv : Str) :
    (trimL w ≠ [] → ∀ k ∈ dangerousWhereKeywords, containsSub (toUpperL w) k = true →
      msgWhereDangerous k ∈ (validateWhereClause w).errors) ∧
    (trimL w ≠ [] → (containsSub w "--".data || containsSub w "/*".data) = true →
      msgWhereComment ∈ (validateWhereClause w).errors) ∧
    (trimL csv ≠ [] → trimL csv ≠ "*".data →
      (validateColumnList csv).errors =
        ((List.splitOn ',' csv).map trimL).flatMap (fun col =>
          if !(validateColumnName col).valid then (validateColumnName col).errors
          else [])) := by
  refine ⟨?_, ?_, ?_⟩
  · intro h k hk hc
    have hmem := mem_filterMap_if dangerousWhereKeywords
      (fun k => containsSub (toUpperL w) k) msgWhereDangerous k hk hc
    have hne : (dangerousWhereKeywords.filterMap (fun keyword =>
        if containsSub (toUpperL w) keyword = true then some (msgWhereDangerous keyword)
        else none) ++ (if (containsSub w "--".data || containsSub w "/*".data) = true
          then [msgWhereComment] else [])) ≠ [] :=
      List.ne_nil_of_mem (List.mem_append_left _ hmem)
    have hlen := List.length_pos.mpr hne
    have hval : validateWhereClause w = ⟨false,
        dangerousWhereKeywords.filterMap (fun keyword =>
          if containsSub (toUpperL w) keyword = true then some (msgWhereDangerous keyword)
          else none) ++ (if (containsSub w "--".data || containsSub w "/*".data) = true
            then [msgWhereComment] else []), []⟩ := by
      simp only [validateWhereClause, if_neg h, gt_iff_lt, hlen, if_true]
    rw [hval]
    exact List.mem_append_left _ hmem
  · intro h hcm
    have hmem : msgWhereComment ∈ (if (containsSub w "--".data ||
        containsSub w "/*".data) = true then [msgWhereComment] else []) := by
      simp [hcm]
    have hne : (dangerousWhereKeywords.filterMap (fun keyword =>
        if containsSub (toUpperL w) keyword = true then some (msgWhereDangerous keyword)
        else none) ++ (if (containsSub w "--".data || containsSub w "/*".data) = true
          then [msgWhereComment] else [])) ≠ [] :=
      List.ne_nil_of_mem (List.mem_append_right _ hmem)
    have hlen := List.length_pos.mpr hne
    have hval : validateWhereClause w = ⟨false,
        dangerousWhereKeywords.filterMap (fun keyword =>
          if containsSub (toUpperL w) keyword = true then some (msgWhereDangerous keyword)
          else none) ++ (if (containsSub w "--".data || containsSub w "/*".data) = true
            then [msgWhereComment] else []), []⟩ := by
      simp only [validateWhereClause, if_neg h, gt_iff_lt, hlen, if_true]
    rw [hval]
    exact List.mem_append_right _ hmem
  · intro h1 h2
    simp only [validateColumnList, if_neg h1, if_neg h2]
    split
    next hc => rfl
    next hc =>
      have h0 : (((List.splitOn ',' csv).map trimL).flatMap (fun col =>
          if !(validateColumnName col).valid then (validateColumnName col).errors
          else [])) = [] := List.length_eq_zero.mp (by omega)
      exact h0.symm

/-- Witness for the amended C9: a fragment containing `DROP` reports the
`DROP` keyword error, a fragment with `--` reports the comment error,
and a two-column list aggregates per-column errors. -/
theorem c9_witness :
    msgWhereDangerous "DROP".data ∈ (validateWhereClause "x DROP y".data).errors ∧
    msgWhereComment ∈ (validateWhereClause "a -- b".data).errors ∧
    (validateColumnList "a,b;c".data).errors = [msgColumnInvalidChars] :=
  ⟨(c9_accumulation_amended "x DROP y".data []).1 (by decide) "DROP".data
     (by decide) (by decide),
   (c9_accumulation_amended "a -- b".data []).2.1 (by decide) (by decide),
   ((c9_accumulation_amended [] "a,b;c".data).2.2 (by decide) (by decide)).trans
     (by decide)⟩
